/-
  Verification of the real-time audio-capture-and-streaming session of
  gijiroku-maker (frontend TranscriptionApp in EmailRegisterForm.tsx).

  The file shallowly embeds the session controller, the audio encoder, the
  capture-start gate, and the transcript aggregator as Lean definitions
  translated from the TypeScript source, and proves the spec's claims about
  them.  JavaScript numbers are modelled as exact rationals (the operations
  involved — min, multiplication by 32767, truncation — are exact at every
  input used to settle a claim), and the Int16Array element store is modelled
  by ECMAScript ToInt16 (truncate toward zero, wrap modulo 2^16).
-/
import Mathlib

namespace Gijiroku

/-! ## WebSocket transport constants

The `WebSocket.readyState` values from the WHATWG WebSocket interface, as used
by the source's guards (`readyState === WebSocket.OPEN`,
`=== WebSocket.CONNECTING`). -/

def WS_CONNECTING : ℕ := 0
def WS_OPEN : ℕ := 1
def WS_CLOSING : ℕ := 2
def WS_CLOSED : ℕ := 3

/-- The React `connectionStatus` state:
`useState<"disconnected" | "connecting" | "connected" | "error">`. -/
inductive ConnStatus
  | disconnected
  | connecting
  | connected
  | error
deriving DecidableEq, Repr

/-! ## Audio sample encoder

Source (`convertFloat32ToInt16`, two identical copies: one in the
AudioWorklet-based TranscriptionApp, lines 1141–1148, and one in the older
ScriptProcessor-based one, lines 1600–1607):

```ts
const convertFloat32ToInt16 = (buffer: Float32Array) => {
  const l = buffer.length;
  const buf = new Int16Array(l);
  for (let i = 0; i < l; i++) {
    buf[i] = Math.min(1, buffer[i]) * 0x7fff;
  }
  return buf.buffer;
};
```

The store `buf[i] = v` performs ECMAScript ToInt16: truncate `v` toward zero,
reduce modulo 2^16, reinterpret as a signed 16-bit value. -/

/-- Model of `Math.min(a, b)` on (non-NaN) numbers. -/
def jsMin (a b : ℚ) : ℚ := if a ≤ b then a else b

/-- Truncation toward zero of a rational, as ECMAScript ToIntegerOrInfinity
does on a finite number: floor for nonnegative values, ceiling for negative
ones. -/
def ratTrunc (q : ℚ) : ℤ := if 0 ≤ q then ⌊q⌋ else ⌈q⌉

/-- ECMAScript ToInt16 applied to an integer: wrap modulo 2^16 into
[-32768, 32767]. -/
def toInt16 (i : ℤ) : ℤ :=
  let r := i % 65536
  if r < 32768 then r else r - 65536

/-- One iteration of the conversion loop:
`buf[i] = Math.min(1, buffer[i]) * 0x7fff`. -/
def encodeSample (x : ℚ) : ℤ := toInt16 (ratTrunc (jsMin 1 x * 32767))

/-- Function `convertFloat32ToInt16` as defined in the AudioWorklet-based
TranscriptionApp (EmailRegisterForm.tsx lines 1141–1148). -/
def convertFloat32ToInt16_worklet (buffer : List ℚ) : List ℤ :=
  buffer.map (fun x => toInt16 (ratTrunc (jsMin 1 x * 32767)))

/-- Function `convertFloat32ToInt16` as defined in the ScriptProcessor-based
TranscriptionApp (EmailRegisterForm.tsx lines 1600–1607); the source text is
identical to the AudioWorklet copy. -/
def convertFloat32ToInt16_script (buffer : List ℚ) : List ℤ :=
  buffer.map (fun x => toInt16 (ratTrunc (jsMin 1 x * 32767)))

/-! ## Close handler

Source (`globalWebSocket.onclose`, EmailRegisterForm.tsx lines 979–1004):

```ts
globalWebSocket.onclose = (event) => {
  if (isExplicitlyClosing) { log } else {
    setConnectionStatus("disconnected");
    if (event.code === 4001) { toast auth error; return; }
    if (event.code !== 1000 && event.code !== 1001) {
      setTimeout(connectWebSocket, 3000);
    }
  }
};
``` -/

/-- Observable effects of one run of the `onclose` handler. -/
structure CloseOutcome where
  /-- set to `some d` when `setTimeout(connectWebSocket, d)` was called. -/
  reconnectDelayMs : Option ℕ
  /-- whether the destructive "認証エラー" toast was shown. -/
  authErrorSurfaced : Bool
  /-- the `setConnectionStatus` call made, if any. -/
  statusSet : Option ConnStatus
deriving DecidableEq, Repr

/-- The `onclose` handler, as a function of the `isExplicitlyClosing` flag at
close time and the close event's code. -/
def onClose (isExplicitlyClosing : Bool) (code : ℕ) : CloseOutcome :=
  if isExplicitlyClosing then
    { reconnectDelayMs := none, authErrorSurfaced := false, statusSet := none }
  else if code = 4001 then
    { reconnectDelayMs := none, authErrorSurfaced := true,
      statusSet := some .disconnected }
  else if code ≠ 1000 ∧ code ≠ 1001 then
    { reconnectDelayMs := some 3000, authErrorSurfaced := false,
      statusSet := some .disconnected }
  else
    { reconnectDelayMs := none, authErrorSurfaced := false,
      statusSet := some .disconnected }

/-! ## Per-chunk audio handlers

Source, AudioWorklet version (lines 1063–1068):

```ts
processor.port.onmessage = (e) => {
  if (globalWebSocket?.readyState === WebSocket.OPEN) {
    const audioData = convertFloat32ToInt16(e.data);
    globalWebSocket.send(audioData);
  }
};
```

Source, ScriptProcessor version (lines 1522–1536): same guard, but with an
`else` branch that logs a warning when `Math.random() < 0.01`.

The transport reference is modelled by `Option ℕ`: `none` when
`globalWebSocket` is null (so `globalWebSocket?.readyState` is undefined and
the guard is false), `some r` for a socket whose `readyState` is `r`. -/

/-- Everything a chunk handler could conceivably do with a full chunk; the
handlers translated from the source only ever produce the first three. -/
inductive ChunkAction
  | sent (frame : List ℤ)
  | dropSilent
  | dropWarn
  | enqueued
  | raisedError
deriving DecidableEq, Repr

/-- The AudioWorklet `processor.port.onmessage` chunk handler. -/
def workletChunkHandler (readyState : Option ℕ) (chunk : List ℚ) : ChunkAction :=
  if readyState = some WS_OPEN then
    ChunkAction.sent (convertFloat32ToInt16_worklet chunk)
  else ChunkAction.dropSilent

/-- The ScriptProcessor `onaudioprocess` chunk handler; `rand` models the
`Math.random()` draw of the rate-limited warning. -/
def scriptChunkHandler (readyState : Option ℕ) (chunk : List ℚ) (rand : ℚ) :
    ChunkAction :=
  if readyState = some WS_OPEN then
    ChunkAction.sent (convertFloat32ToInt16_script chunk)
  else if rand < 1/100 then ChunkAction.dropWarn else ChunkAction.dropSilent

/-! ## Capture start gate

Source (`startRecording`, AudioWorklet version, lines 1026–1048):

```ts
if (connectionStatus !== "connected") { toast 接続エラー; return; }
if (balance !== null && balance <= 0) { toast 残高不足; return; }
const stream = await navigator.mediaDevices.getUserMedia({audio: true});
...
```

The `balance !== null && balance <= 0` test becomes a match on the
`Option ℚ`-valued balance. -/

/-- Point reached by a `startRecording` invocation before any device access. -/
inductive StartOutcome
  | connectionError
  | balanceError
  | deviceRequested
deriving DecidableEq, Repr

/-- The guards of `startRecording`, up to the `getUserMedia` call. -/
def startRecording (connectionStatus : ConnStatus) (balance : Option ℚ) :
    StartOutcome :=
  if connectionStatus ≠ ConnStatus.connected then StartOutcome.connectionError
  else
    match balance with
    | some b =>
      if b ≤ 0 then StartOutcome.balanceError else StartOutcome.deviceRequested
    | none => StartOutcome.deviceRequested

/-! ## Connect operation

Source (`connectWebSocket`, lines 896–914):

```ts
if (globalWebSocket) {
  if (globalWebSocket.readyState === WebSocket.OPEN ||
      globalWebSocket.readyState === WebSocket.CONNECTING) return;
}
if (!token) return;
setConnectionStatus("connecting");
isExplicitlyClosing = false;
globalWebSocket = new WebSocket(wsUrl, "cognito-auth");
``` -/

/-- The guard on the existing handle: true when a socket exists and its
`readyState` is OPEN or CONNECTING. -/
def wsActive (ws : Option ℕ) : Bool :=
  match ws with
  | some r => r == WS_OPEN || r == WS_CONNECTING
  | none => false

/-- Module-level session state touched by `connectWebSocket`. -/
structure ConnState where
  /-- the `readyState` of `globalWebSocket`; `none` when it is null. -/
  ws : Option ℕ
  status : ConnStatus
  explicitClosing : Bool
deriving DecidableEq, Repr

/-- One call of `connectWebSocket`, returning the new state and whether a new
WebSocket handle was constructed. -/
def connectWebSocket (token : Option String) (s : ConnState) :
    ConnState × Bool :=
  if wsActive s.ws then (s, false)
  else
    match token with
    | none => (s, false)
    | some _ =>
      ({ ws := some WS_CONNECTING, status := ConnStatus.connecting,
         explicitClosing := false }, true)

/-! ## Transcript aggregator

Source (`globalWebSocket.onmessage`, lines 938–970): dispatch on
`data.type`; the `transcription` branch runs
`setAllTranscript((prev) => `...`${prev} ${data.text}`...`)`, the `immediate`
branch `setImmediate(data.text)`, the `minutes` branch `setMinutes(data.text)`;
every `error` branch (including the early-returning "認証失敗" sub-case) only
shows a toast and leaves the transcript state unchanged. -/

/-- Inbound typed messages of the protocol. -/
inductive InMsg
  | transcription (text : String)
  | immediate (text : String)
  | minutes (text : String)
  | error (message : String)
deriving DecidableEq, Repr

/-- The React state the message dispatch writes to. -/
structure TranscriptState where
  allTranscript : String
  immediate : String
  minutes : String
deriving DecidableEq, Repr

/-- Initial values of the three `useState<string>("")` hooks. -/
def initialTranscriptState : TranscriptState :=
  { allTranscript := "", immediate := "", minutes := "" }

/-- The `onmessage` dispatch on a successfully parsed inbound message. -/
def onMessage (s : TranscriptState) : InMsg → TranscriptState
  | .transcription t => { s with allTranscript := s.allTranscript ++ " " ++ t }
  | .immediate t => { s with immediate := t }
  | .minutes t => { s with minutes := t }
  | .error _ => s

/-! ## Summary generation

Source (`generateMinutes`, lines 1099–1129):

```ts
if (!token) return;
try {
  const response = await fetch(`...`/generate_minutes`...`, {... transcript: allTranscript});
  if (!response.ok) throw new Error(...);
  const data = await response.json();
  setMinutes(data.minutes);
  await fetchProfile();
  toast 成功;
} catch { toast エラー; }
```

and the generate button (line 1276) is rendered with
`disabled={!allTranscript}`.  The backend response is modelled as
`Option String`: `some m` when the request succeeded with JSON
`{minutes: m}`, `none` for any failure (network error, non-ok status, parse
failure) — all of which occur before `setMinutes`.  `fetchProfile` never
throws (it catches internally, useUserProfile.ts lines 34–36). -/

/-- Observable side effects of one `generateMinutes` call. -/
structure GenEffects where
  /-- whether the POST to `/generate_minutes` was issued. -/
  requestSent : Bool
  /-- whether `fetchProfile()` was re-invoked (balance/usage refresh). -/
  profileRefreshed : Bool
  /-- whether the destructive error toast was shown. -/
  errorSurfaced : Bool
deriving DecidableEq, Repr

/-- One call of `generateMinutes`. -/
def generateMinutes (token : Option String) (response : Option String)
    (s : TranscriptState) : TranscriptState × GenEffects :=
  match token with
  | none =>
    (s, { requestSent := false, profileRefreshed := false,
          errorSurfaced := false })
  | some _ =>
    match response with
    | some m =>
      ({ s with minutes := m },
       { requestSent := true, profileRefreshed := true,
         errorSurfaced := false })
    | none =>
      (s, { requestSent := true, profileRefreshed := false,
            errorSurfaced := true })

/-- The generate button's `disabled={!allTranscript}` guard. -/
def generateButtonDisabled (allTranscript : String) : Bool :=
  allTranscript == ""

/-! ## Session event traces

The per-connection ordering claims (auth message before audio frames) concern
the interleaving of the asynchronous `onopen` handler with the per-chunk audio
callback, so they are settled over a small trace semantics.  The `onopen`
handler

```ts
globalWebSocket.onopen = async () => {
  try {
    const session = await fetchAuthSession();
    const latestToken = session.tokens?.accessToken?.toString();
    if (globalWebSocket && latestToken) {
      globalWebSocket.send(JSON.stringify({type: "auth", token: latestToken}));
    }
  } catch (err) { log }
  setConnectionStatus("connected");
};
```

suspends at `await fetchAuthSession()`, so it is modelled as two events: the
transport becoming open (which starts the credential fetch), and the fetch
resolving (which sends the auth message if a token was obtained, and then
marks the status connected).  Between the two, other callbacks — in
particular the per-chunk audio handler, which only checks
`readyState === WebSocket.OPEN` — can run. -/

/-- Outbound messages on a given WebSocket handle. -/
inductive OutMsg
  | authMsg (token : String)
  | audioFrame (samples : List ℤ)
deriving DecidableEq, Repr

/-- Module-level session state plus the outbound message log of the current
handle. -/
structure SessionState where
  /-- the `readyState` of `globalWebSocket`; `none` when it is null. -/
  ws : Option ℕ
  status : ConnStatus
  explicitClosing : Bool
  /-- whether a recording chunk handler (`processor.port.onmessage`) is
  installed; recording is not torn down by a socket close. -/
  handlerInstalled : Bool
  /-- whether the `onopen` handler is suspended at `await fetchAuthSession()`. -/
  openPending : Bool
  /-- messages sent on the current handle, oldest first. -/
  outbound : List OutMsg
deriving DecidableEq, Repr

/-- Events of the cooperative, single-threaded event loop that touch the
session. -/
inductive SessionEvent
  | connectCalled (token : Option String)
  | transportOpen
  | authFetchResolved (token : Option String)
  | chunkArrives (buf : List ℚ)

/-- One event-loop step. -/
def stepSession (s : SessionState) : SessionEvent → SessionState
  | .connectCalled tok =>
    if wsActive s.ws then s
    else
      match tok with
      | none => s
      | some _ =>
        { s with
          ws := some WS_CONNECTING
          status := ConnStatus.connecting
          explicitClosing := false
          openPending := false
          outbound := [] }
  | .transportOpen =>
    if s.ws = some WS_CONNECTING then
      { s with ws := some WS_OPEN, openPending := true }
    else s
  | .authFetchResolved tok =>
    if s.openPending then
      { s with
        openPending := false
        status := ConnStatus.connected
        outbound := s.outbound ++
          (match s.ws, tok with
           | some _, some t => [OutMsg.authMsg t]
           | _, _ => []) }
    else s
  | .chunkArrives buf =>
    if s.handlerInstalled = true ∧ s.ws = some WS_OPEN then
      { s with outbound :=
          s.outbound ++ [OutMsg.audioFrame (convertFloat32ToInt16_worklet buf)] }
    else s

/-- Run of a list of events. -/
def runSession (s : SessionState) (events : List SessionEvent) : SessionState :=
  events.foldl stepSession s

/-- Disconnected state in which a recording chunk handler is still installed:
this is the state of the app when the socket dropped mid-recording and a
reconnection is about to run. -/
def recordingIdleState : SessionState :=
  { ws := none, status := ConnStatus.disconnected, explicitClosing := false,
    handlerInstalled := true, openPending := false, outbound := [] }

end Gijiroku

namespace Gijiroku

/-! ## Helper lemmas -/

/-- Lemma: `toInt16` is the identity on values already in the signed 16-bit
range. -/
theorem toInt16_eq_self {i : ℤ} (h1 : -32768 ≤ i) (h2 : i < 32768) :
    toInt16 i = i := by
  simp only [toInt16]
  split_ifs <;> omega

/-- Lemma: for a sample within `[-1, 1]`, the encoder returns the truncation
toward zero of `x * 32767` (no wraparound occurs). -/
theorem encodeSample_of_mem_unit {x : ℚ} (h1 : -1 ≤ x) (h2 : x ≤ 1) :
    encodeSample x = ratTrunc (x * 32767) := by
  have hq1 : (-32767 : ℚ) ≤ x * 32767 := by nlinarith
  have hq2 : x * 32767 ≤ 32767 := by nlinarith
  have hb : -32767 ≤ ratTrunc (x * 32767) ∧ ratTrunc (x * 32767) ≤ 32767 := by
    simp only [ratTrunc]
    split_ifs with h0
    · constructor
      · have : (0 : ℤ) ≤ ⌊x * 32767⌋ := Int.floor_nonneg.mpr h0
        omega
      · have := Int.floor_le_floor hq2
        simpa using this
    · constructor
      · have := Int.ceil_le_ceil hq1
        simpa using this
      · have : ⌈x * 32767⌉ ≤ (0 : ℤ) :=
          Int.ceil_le.mpr (by exact_mod_cast le_of_not_le h0)
        omega
  have hmin : jsMin 1 x * 32767 = x * 32767 := by
    rcases le_or_lt 1 x with hx | hx
    · have : x = 1 := le_antisymm h2 hx
      simp [jsMin, this]
    · simp [jsMin, not_le.mpr hx]
  rw [encodeSample, hmin]
  exact toInt16_eq_self (by omega) (by omega)

/-- Lemma: a sample at or above `1` is clamped, and the encoder returns
`32767`. -/
theorem encodeSample_of_one_le {x : ℚ} (h : 1 ≤ x) :
    encodeSample x = 32767 := by
  have hmin : jsMin 1 x = 1 := by simp [jsMin, h]
  rw [encodeSample, hmin]
  norm_num [ratTrunc, toInt16]

/-! ## Claim theorems -/

/-- Claim C1: for every close event, a reconnection (after the fixed 3000 ms
delay) is scheduled iff `isExplicitlyClosing` was false and the close code is
not in {1000, 1001, 4001}; for 1000/1001 no reconnection is scheduled, and for
4001 no reconnection is scheduled and the authentication failure is surfaced
to the user. -/
theorem close_reconnect_iff (ex : Bool) (code : ℕ) :
    ((onClose ex code).reconnectDelayMs = some 3000 ↔
      (ex = false ∧ code ≠ 1000 ∧ code ≠ 1001 ∧ code ≠ 4001)) ∧
    (onClose ex 1000).reconnectDelayMs = none ∧
    (onClose ex 1001).reconnectDelayMs = none ∧
    (onClose ex 4001).reconnectDelayMs = none ∧
    (onClose false 4001).authErrorSurfaced = true := by
  cases ex <;> simp only [onClose] <;> split_ifs <;> simp_all

/-- Claim C2, counterexample: the claim states that every sample is clamped to
`[-1, 1]` before scaling and that `-1.0` encodes to `-32768`.  On the code,
`-1.0` encodes to `-32767` (the scale factor is `0x7fff = 32767` on both
ends), and `-2.0` is not clamped at all: it scales to `-65534`, which the
Int16Array store wraps to `+2`.  Under the claim both inputs would encode to
`-32768`. -/
theorem convert_clamp_counterexample :
    convertFloat32ToInt16_worklet [(-1 : ℚ), (-2 : ℚ)] = [-32767, 2] ∧
    convertFloat32ToInt16_worklet [(-1 : ℚ), (-2 : ℚ)] ≠ [-32768, -32768] := by
  constructor
  · norm_num [convertFloat32ToInt16_worklet, jsMin, ratTrunc, toInt16,
      Int.ceil_neg, Int.floor_neg]
  · norm_num [convertFloat32ToInt16_worklet, jsMin, ratTrunc, toInt16,
      Int.ceil_neg, Int.floor_neg]

/-- Claim C2, amended: `convertFloat32ToInt16` clamps each sample only from
above at `1` (`Math.min(1, x)`), multiplies by `32767`, and stores the result
with int16 truncation and wraparound.  Hence samples within `[-1, 1]` map to
the round-toward-zero value of `x * 32767` (so `1.0 → 32767` but
`-1.0 → -32767`, not `-32768`); samples at or above `1` are clamped and map to
`32767`; samples below `-1` are not clamped (for example `-2.0` wraps to
`+2`). -/
theorem convert_clamp_amended :
    (∀ l : List ℚ, (∀ x ∈ l, -1 ≤ x ∧ x ≤ 1) →
        convertFloat32ToInt16_worklet l
          = l.map (fun x => ratTrunc (x * 32767))) ∧
    (∀ x : ℚ, 1 ≤ x → encodeSample x = 32767) ∧
    convertFloat32ToInt16_worklet [(1 : ℚ), -1, -2] = [32767, -32767, 2] := by
  refine ⟨?_, fun x hx => encodeSample_of_one_le hx, ?_⟩
  · intro l hl
    apply List.map_congr_left
    intro x hx
    exact encodeSample_of_mem_unit (hl x hx).1 (hl x hx).2
  · norm_num [convertFloat32ToInt16_worklet, jsMin, ratTrunc, toInt16,
      Int.ceil_neg, Int.floor_neg]

/-- Witness for the amended C2 theorem at the concrete buffer `[1/2]`. -/
theorem convert_clamp_amended_witness :
    convertFloat32ToInt16_worklet [(1/2 : ℚ)] = [16383] := by
  have h := convert_clamp_amended.1 [(1/2 : ℚ)] (by norm_num)
  rw [h]
  norm_num [ratTrunc]

/-- Claim C3: a chunk is transmitted iff the transport's connection state is
open (`readyState === WebSocket.OPEN`); a chunk produced otherwise is dropped
(neither queued nor raised as an error): silently in the AudioWorklet version,
and with at most a rate-limited warning (only when the `Math.random()` draw
falls below 1/100) in the ScriptProcessor version. -/
theorem chunk_sent_iff_open (ws : Option ℕ) (chunk : List ℚ) (rand : ℚ) :
    ((∃ f, workletChunkHandler ws chunk = ChunkAction.sent f) ↔
      ws = some WS_OPEN) ∧
    ((∃ f, scriptChunkHandler ws chunk rand = ChunkAction.sent f) ↔
      ws = some WS_OPEN) ∧
    (ws ≠ some WS_OPEN →
      workletChunkHandler ws chunk = ChunkAction.dropSilent ∧
      (scriptChunkHandler ws chunk rand = ChunkAction.dropWarn ∨
       scriptChunkHandler ws chunk rand = ChunkAction.dropSilent)) ∧
    workletChunkHandler ws chunk ≠ ChunkAction.enqueued ∧
    workletChunkHandler ws chunk ≠ ChunkAction.raisedError ∧
    scriptChunkHandler ws chunk rand ≠ ChunkAction.enqueued ∧
    scriptChunkHandler ws chunk rand ≠ ChunkAction.raisedError := by
  simp only [workletChunkHandler, scriptChunkHandler]
  split_ifs <;> simp_all

/-- Witness for C3 at a null transport handle: the worklet handler drops the
chunk silently, the ScriptProcessor handler at a sub-1% random draw drops it
with a warning. -/
theorem chunk_sent_iff_open_witness :
    workletChunkHandler none [(0 : ℚ)] = ChunkAction.dropSilent ∧
    (scriptChunkHandler none [(0 : ℚ)] 0 = ChunkAction.dropWarn ∨
     scriptChunkHandler none [(0 : ℚ)] 0 = ChunkAction.dropSilent) :=
  (chunk_sent_iff_open none [(0 : ℚ)] 0).2.2.1 (by simp)

/-- Claim C5: `startRecording` rejects with the connection error whenever the
connection state is not `connected`, and rejects with the balance error
whenever the state is `connected` but the loaded balance is ≤ 0; in both
cases it returns before any `getUserMedia` device-access request.  In
particular, starting with balance 0 yields the insufficient-balance error. -/
theorem startRecording_gate (st : ConnStatus) (bal : Option ℚ) (b : ℚ) :
    (st ≠ ConnStatus.connected →
      startRecording st bal = StartOutcome.connectionError) ∧
    (b ≤ 0 →
      startRecording ConnStatus.connected (some b) = StartOutcome.balanceError) ∧
    ((st ≠ ConnStatus.connected ∨ b ≤ 0) →
      startRecording st (some b) ≠ StartOutcome.deviceRequested) ∧
    startRecording ConnStatus.connected (some 0) = StartOutcome.balanceError := by
  refine ⟨fun h => by simp [startRecording, h], fun h => by simp [startRecording, h],
    ?_, by norm_num [startRecording]⟩
  rintro (h | h)
  · simp [startRecording, h]
  · simp only [startRecording]
    split_ifs <;> simp_all

/-- Witness for C5: with a disconnected status the start is rejected with the
connection error, and with status connected and balance 0 it is rejected with
the balance error; neither reaches device access. -/
theorem startRecording_gate_witness :
    startRecording ConnStatus.disconnected (some (5 : ℚ))
      = StartOutcome.connectionError ∧
    startRecording ConnStatus.connected (some (0 : ℚ))
      = StartOutcome.balanceError ∧
    startRecording ConnStatus.connected (some (0 : ℚ))
      ≠ StartOutcome.deviceRequested := by
  refine ⟨(startRecording_gate ConnStatus.disconnected (some 5) 0).1 (by simp),
    (startRecording_gate ConnStatus.connected (some 0) 0).2.1 le_rfl,
    (startRecording_gate ConnStatus.connected (some 0) 0).2.2.1 (Or.inr le_rfl)⟩

/-- Claim C6: `connectWebSocket` is idempotent — when the existing handle is
CONNECTING or OPEN the call returns without any effect and constructs no new
handle; when no credential is available it likewise returns without any
effect; and a new handle is only ever constructed when the previous one was
not CONNECTING/OPEN (so at most one handle is active at a time). -/
theorem connect_idempotent (s : ConnState) (tok : Option String) :
    (wsActive s.ws = true → connectWebSocket tok s = (s, false)) ∧
    (tok = none → connectWebSocket tok s = (s, false)) ∧
    ((connectWebSocket tok s).2 = true → wsActive s.ws = false) := by
  refine ⟨fun h => by simp [connectWebSocket, h], fun h => ?_, fun h => ?_⟩
  · subst h
    simp only [connectWebSocket]
    split_ifs <;> rfl
  · by_contra hne
    simp only [Bool.not_eq_false] at hne
    simp [connectWebSocket, hne] at h

/-- Witness for C6: calling connect with an OPEN handle is a no-op, and
calling it with no token is a no-op. -/
theorem connect_idempotent_witness :
    connectWebSocket (some "T1")
      { ws := some WS_OPEN, status := ConnStatus.connected,
        explicitClosing := false }
      = ({ ws := some WS_OPEN, status := ConnStatus.connected,
           explicitClosing := false }, false) ∧
    connectWebSocket none
      { ws := none, status := ConnStatus.disconnected,
        explicitClosing := false }
      = ({ ws := none, status := ConnStatus.disconnected,
           explicitClosing := false }, false) := by
  constructor
  · exact (connect_idempotent
      { ws := some WS_OPEN, status := ConnStatus.connected,
        explicitClosing := false } (some "T1")).1 (by simp [wsActive, WS_OPEN])
  · exact (connect_idempotent
      { ws := none, status := ConnStatus.disconnected,
        explicitClosing := false } none).2.1 rfl

/-- Claim C7: a `transcription` message with text `t` updates the full
transcript to the previous transcript, a single space, then `t`, and touches
nothing else; from the initial empty transcript, receiving
`{type:"transcription", text:"hello"}` yields `" hello"`. -/
theorem transcription_appends (s : TranscriptState) (t : String) :
    (onMessage s (InMsg.transcription t)).allTranscript
      = s.allTranscript ++ " " ++ t ∧
    (onMessage s (InMsg.transcription t)).immediate = s.immediate ∧
    (onMessage s (InMsg.transcription t)).minutes = s.minutes ∧
    (onMessage initialTranscriptState
      (InMsg.transcription "hello")).allTranscript = " hello" := by
  refine ⟨rfl, rfl, rfl, rfl⟩

/-- Claim C8: an `immediate` message replaces the `immediate` field wholesale
and never appends; after `{text:"a"}` then `{text:"ab"}` the field equals
`"ab"`, not `"a ab"`. -/
theorem immediate_replaces (s : TranscriptState) (t1 t2 : String) :
    (onMessage s (InMsg.immediate t2)).immediate = t2 ∧
    (onMessage (onMessage s (InMsg.immediate t1))
      (InMsg.immediate t2)).immediate = t2 ∧
    (onMessage (onMessage s (InMsg.immediate "a"))
      (InMsg.immediate "ab")).immediate = "ab" ∧
    (onMessage (onMessage s (InMsg.immediate "a"))
      (InMsg.immediate "ab")).immediate ≠ "a ab" ∧
    (onMessage s (InMsg.immediate t2)).allTranscript = s.allTranscript := by
  refine ⟨rfl, rfl, rfl, by simp [onMessage], rfl⟩

/-- Claim C9: summary generation is gated on a non-empty full transcript (the
generate button is disabled exactly when the transcript is empty); on a
successful backend response it replaces the summary output with the returned
text, leaves the transcript unchanged, and re-fetches the profile (billed
operation); on any failure it surfaces an error and leaves both the prior
summary and the transcript unchanged. -/
theorem generateMinutes_contract (tok m : String) (s : TranscriptState)
    (t : String) :
    (generateButtonDisabled t = true ↔ t = "") ∧
    (generateMinutes (some tok) (some m) s).1.minutes = m ∧
    (generateMinutes (some tok) (some m) s).1.allTranscript
      = s.allTranscript ∧
    (generateMinutes (some tok) (some m) s).2.profileRefreshed = true ∧
    (generateMinutes (some tok) (some m) s).2.errorSurfaced = false ∧
    (generateMinutes (some tok) none s).1 = s ∧
    (generateMinutes (some tok) none s).2.errorSurfaced = true ∧
    (generateMinutes (some tok) none s).2.profileRefreshed = false := by
  refine ⟨?_, rfl, rfl, rfl, rfl, rfl, rfl, rfl⟩
  simp [generateButtonDisabled, beq_iff_eq]

/-- Lemma: once the current handle is OPEN, no further event changes its
`readyState` or the head of its outbound log (steps only ever append). -/
theorem stepSession_open_invariant (s : SessionState) (e : SessionEvent)
    (m : OutMsg) (hws : s.ws = some WS_OPEN)
    (hm : s.outbound.head? = some m) :
    (stepSession s e).ws = some WS_OPEN ∧
    (stepSession s e).outbound.head? = some m := by
  have hne : s.outbound ≠ [] := by
    intro h
    rw [h] at hm
    exact Option.noConfusion hm
  cases e with
  | connectCalled tok =>
    simp [stepSession, wsActive, hws, WS_OPEN, WS_CONNECTING, hm]
  | transportOpen =>
    simp [stepSession, hws, WS_OPEN, WS_CONNECTING, hm]
  | authFetchResolved tok =>
    by_cases hp : s.openPending <;>
      simp [stepSession, hp, hws, hm, List.head?_append_of_ne_nil _ hne]
  | chunkArrives buf =>
    simp only [stepSession]
    split_ifs <;> simp [hws, hm, List.head?_append_of_ne_nil _ hne]

/-- Lemma: the head of the outbound log of an OPEN handle is stable under any
subsequent run of events. -/
theorem runSession_open_head (events : List SessionEvent) (s : SessionState)
    (m : OutMsg) (hws : s.ws = some WS_OPEN)
    (hm : s.outbound.head? = some m) :
    (runSession s events).outbound.head? = some m := by
  induction events generalizing s with
  | nil => exact hm
  | cons e es ih =>
    have h := stepSession_open_invariant s e m hws hm
    exact ih (stepSession s e) h.1 h.2

/-- Claim C4, counterexample: the claim states that on every connection the
auth message is sent before any binary audio frame.  Consider a client that
was recording when the socket dropped (`recordingIdleState`): the reconnect
creates a new socket, the transport opens (the `onopen` handler suspends at
`await fetchAuthSession()`), an audio chunk callback fires while
`readyState === OPEN` and sends a binary frame, and only then does the
credential fetch resolve and send the auth message.  On this connection the
first outbound message is an audio frame, not the auth message. -/
theorem auth_first_counterexample :
    (runSession recordingIdleState
      [SessionEvent.connectCalled (some "T1"), SessionEvent.transportOpen,
       SessionEvent.chunkArrives [0],
       SessionEvent.authFetchResolved (some "T1")]).outbound
      = [OutMsg.audioFrame [0], OutMsg.authMsg "T1"] ∧
    (runSession recordingIdleState
      [SessionEvent.connectCalled (some "T1"), SessionEvent.transportOpen,
       SessionEvent.chunkArrives [0],
       SessionEvent.authFetchResolved (some "T1")]).outbound.head?
      ≠ some (OutMsg.authMsg "T1") := by
  have h : (runSession recordingIdleState
      [SessionEvent.connectCalled (some "T1"), SessionEvent.transportOpen,
       SessionEvent.chunkArrives [0],
       SessionEvent.authFetchResolved (some "T1")]).outbound
      = [OutMsg.audioFrame [0], OutMsg.authMsg "T1"] := by
    norm_num [runSession, stepSession, recordingIdleState, wsActive,
      WS_OPEN, WS_CONNECTING, convertFloat32ToInt16_worklet, jsMin,
      ratTrunc, toInt16]
  refine ⟨h, ?_⟩
  rw [h]
  simp

/-- Claim C4, amended: on every connection on which the `onopen` handler's
credential fetch resolves with a token before any audio chunk event occurs on
that connection, the auth message is the first outbound message and stays
first under any subsequent events; and the state is marked Connected only
when the open handler completes, after the auth send attempt (the transport
opening alone leaves the status at `connecting`). -/
theorem auth_first_amended (s : SessionState) (t : String)
    (rest : List SessionEvent)
    (hws : s.ws = some WS_CONNECTING) (hout : s.outbound = [])
    (hst : s.status = ConnStatus.connecting) :
    (runSession s ([SessionEvent.transportOpen,
        SessionEvent.authFetchResolved (some t)] ++ rest)).outbound.head?
      = some (OutMsg.authMsg t) ∧
    (runSession s [SessionEvent.transportOpen]).status
      = ConnStatus.connecting ∧
    (runSession s [SessionEvent.transportOpen,
        SessionEvent.authFetchResolved (some t)]).status
      = ConnStatus.connected := by
  have h1 : stepSession s SessionEvent.transportOpen
      = { s with ws := some WS_OPEN, openPending := true } := by
    simp [stepSession, hws]
  have h2 : stepSession (stepSession s SessionEvent.transportOpen)
      (SessionEvent.authFetchResolved (some t))
      = { s with
          ws := some WS_OPEN
          openPending := false
          status := ConnStatus.connected
          outbound := [OutMsg.authMsg t] } := by
    rw [h1]
    simp [stepSession, hout]
  refine ⟨?_, by simp [runSession, h1, hst], ?_⟩
  · have hrun : runSession s ([SessionEvent.transportOpen,
        SessionEvent.authFetchResolved (some t)] ++ rest)
        = runSession (stepSession (stepSession s SessionEvent.transportOpen)
            (SessionEvent.authFetchResolved (some t))) rest := rfl
    rw [hrun, h2]
    exact runSession_open_head rest _ _ rfl rfl
  · have hrun2 : runSession s [SessionEvent.transportOpen,
        SessionEvent.authFetchResolved (some t)]
        = stepSession (stepSession s SessionEvent.transportOpen)
            (SessionEvent.authFetchResolved (some t)) := rfl
    rw [hrun2, h2]

/-- Witness for the amended C4 theorem: starting from a concrete freshly
connecting state with no chunk handler activity, the auth message for token
"T1" ends up first in the outbound log. -/
theorem auth_first_amended_witness :
    (runSession
      { ws := some WS_CONNECTING, status := ConnStatus.connecting,
        explicitClosing := false, handlerInstalled := false,
        openPending := false, outbound := [] }
      [SessionEvent.transportOpen,
       SessionEvent.authFetchResolved (some "T1")]).outbound.head?
      = some (OutMsg.authMsg "T1") := by
  simpa using (auth_first_amended
    { ws := some WS_CONNECTING, status := ConnStatus.connecting,
      explicitClosing := false, handlerInstalled := false,
      openPending := false, outbound := [] }
    "T1" [] rfl rfl rfl).1

/-- Claim C10: the AudioWorklet-based and the ScriptProcessor-based versions
of `convertFloat32ToInt16` are extensionally equal: on every input buffer they
produce the same int16 output (their source text is in fact identical). -/
theorem convert_worklet_script_equal :
    ∀ buffer : List ℚ,
      convertFloat32ToInt16_worklet buffer
        = convertFloat32ToInt16_script buffer :=
  fun _ => rfl

end Gijiroku
